import Mathlib

/-! Verification of the Vulkan resource-management helpers in
`src/libANGLE/renderer/vulkan/vk_helpers.cpp`.

The C++ code is shallowly embedded: each helper class becomes a structure,
each member function a pure function from the old state (plus a `RendererVk`
capability and, where relevant, a recorded command list) to the new state and
its outputs.  Machine integers are modelled as `Nat` with explicit `% 2^32`
(for `uint32_t` members) and an explicit `2^64` overflow bound (for the
`CheckedNumeric<size_t>` overflow check).  GPU handles are modelled as natural
numbers handed out by a fresh-handle counter carried by the renderer; the null
handle is `0`. -/

namespace VkHelpers

/-- Value range bound of `uint32_t`. -/
def size32 : Nat := 2 ^ 32

/-- Value range bound of `size_t` (64-bit). -/
def size64 : Nat := 2 ^ 64

/-- The `roundUp` helper used by `DynamicBuffer::allocate` (rounds `value` up
to the next multiple of `alignment`). -/
def roundUp (value alignment : Nat) : Nat :=
  ((value + alignment - 1) / alignment) * alignment

/-! Vulkan enumeration constants used by the code (values from vulkan_core.h). -/

def VK_ACCESS_SHADER_READ_BIT : Nat := 32
def VK_ACCESS_COLOR_ATTACHMENT_WRITE_BIT : Nat := 256
def VK_ACCESS_DEPTH_STENCIL_ATTACHMENT_WRITE_BIT : Nat := 1024
def VK_ACCESS_TRANSFER_READ_BIT : Nat := 2048
def VK_ACCESS_TRANSFER_WRITE_BIT : Nat := 4096
def VK_ACCESS_HOST_WRITE_BIT : Nat := 16384
def VK_ACCESS_MEMORY_READ_BIT : Nat := 32768

def VK_PIPELINE_STAGE_TRANSFER_BIT : Nat := 4096
def VK_PIPELINE_STAGE_ALL_COMMANDS_BIT : Nat := 65536

def VK_IMAGE_ASPECT_COLOR_BIT : Nat := 1

def VK_QUEUE_FAMILY_IGNORED : Nat := 4294967295
def VK_REMAINING_MIP_LEVELS : Nat := 4294967295

def VK_BUFFER_USAGE_TRANSFER_DST_BIT : Nat := 2
def VK_BUFFER_USAGE_INDEX_BUFFER_BIT : Nat := 64

/-- The image layouts this subsystem manipulates. -/
inductive VkImageLayout where
  | Undefined
  | General
  | ColorAttachmentOptimal
  | DepthStencilAttachmentOptimal
  | ShaderReadOnlyOptimal
  | TransferSrcOptimal
  | TransferDstOptimal
  | Preinitialized
  | PresentSrc
deriving DecidableEq, Fintype

inductive VkIndexType where
  | Uint16
  | Uint32
deriving DecidableEq

/-- GL index types reaching `getIndexBufferForClientElementArray`. -/
inductive GLIndexType where
  | UnsignedByte
  | UnsignedShort
  | UnsignedInt
deriving DecidableEq

/-- `gl_vk::GetIndexType`: unsigned byte is emulated with 16-bit indices. -/
def GetIndexType : GLIndexType → VkIndexType
  | GLIndexType.UnsignedByte => VkIndexType.Uint16
  | GLIndexType.UnsignedShort => VkIndexType.Uint16
  | GLIndexType.UnsignedInt => VkIndexType.Uint32

/-- Modelled from the spec: the `Renderer` capability consumed by the helpers
(`RendererVk` is declared in headers missing from `src/`).  It exposes
`nonCoherentAtomSize` from the physical-device limits, the current
`QueueSerial`, and `releaseObject(serial, obj)` which transfers ownership into
a deferred-release queue keyed by the serial.  A fresh-handle counter models
creation of new GPU objects; handles already handed out are below
`nextHandle`. -/
structure RendererVk where
  nonCoherentAtomSize : Nat
  currentQueueSerial : Nat
  releaseQueue : List (Nat × Nat)
  nextHandle : Nat
deriving DecidableEq

/-- Modelled from the spec: `RendererVk::releaseObject(serial, obj)` appends
the object to the deferred-release queue keyed by `serial`. -/
def RendererVk.releaseObject (r : RendererVk) (serial : Nat) (handle : Nat) : RendererVk :=
  { r with releaseQueue := r.releaseQueue ++ [(serial, handle)] }

/-- A superseded `(buffer, memory)` pair held in `mRetainedBuffers`. -/
structure BufferAndMemory where
  buffer : Nat
  memory : Nat
deriving DecidableEq

/-- State of `DynamicBuffer` (vk_helpers.cpp lines 96-277).  The offset
members are `uint32_t` in the source; sizes are `size_t`. -/
structure DynamicBuffer where
  mUsage : Nat
  mMinSize : Nat
  mNextAllocationOffset : Nat
  mLastFlushOrInvalidateOffset : Nat
  mSize : Nat
  mAlignment : Nat
  mMappedMemory : Bool
  mBuffer : Nat
  mMemory : Nat
  mRetainedBuffers : List BufferAndMemory
deriving DecidableEq

/-- The `DynamicBuffer` constructor (lines 96-105). -/
def DynamicBuffer.new (usage minSize : Nat) : DynamicBuffer :=
  { mUsage := usage, mMinSize := minSize, mNextAllocationOffset := 0,
    mLastFlushOrInvalidateOffset := 0, mSize := 0, mAlignment := 0,
    mMappedMemory := false, mBuffer := 0, mMemory := 0, mRetainedBuffers := [] }

/-- `DynamicBuffer::init` (lines 107-113): the alignment becomes the maximum
of the caller-supplied alignment and the device's `nonCoherentAtomSize`.
The source asserts `alignment > 0`. -/
def DynamicBuffer.init (db : DynamicBuffer) (alignment : Nat) (renderer : RendererVk) :
    DynamicBuffer :=
  { db with mAlignment := max alignment renderer.nonCoherentAtomSize }

/-- `DynamicBuffer::flush` (lines 194-209).  Returns the new state and the
flushed mapped-memory range `(memory, offset, size)` when one was emitted. -/
def DynamicBuffer.flush (db : DynamicBuffer) : DynamicBuffer × Option (Nat × Nat × Nat) :=
  if db.mLastFlushOrInvalidateOffset < db.mNextAllocationOffset then
    ({ db with mLastFlushOrInvalidateOffset := db.mNextAllocationOffset },
     some (db.mMemory, db.mLastFlushOrInvalidateOffset,
           db.mNextAllocationOffset - db.mLastFlushOrInvalidateOffset))
  else (db, none)

/-- Outputs of `DynamicBuffer::allocate`.  `ptrOut` is modelled as the pair
(mapped memory handle, byte offset); `newBufferAllocatedOut` is `none` when
the caller passed `nullptr` for the out-parameter; `flushedRange` records the
flush emitted while rotating, if any. -/
structure AllocateResult where
  db : DynamicBuffer
  renderer : RendererVk
  ptrOut : Nat × Nat
  handleOut : Nat
  offsetOut : Nat
  newBufferAllocatedOut : Option Bool
  flushedRange : Option (Nat × Nat × Nat)
deriving DecidableEq

/-- `DynamicBuffer::allocate` (lines 125-192).  `sizeInBytes` is rounded up to
the alignment; the checked `size_t` addition `mNextAllocationOffset +
sizeToAllocate` triggers rotation when it overflows (`¬IsValid`, i.e. reaches
`2^64`) or reaches `mSize`.  On rotation the current backing is flushed (if
mapped), retired into `mRetainedBuffers`, and a fresh buffer/memory pair of
size `max(sizeToAllocate, mMinSize)` is created and mapped.  The final
`mNextAllocationOffset += (uint32_t)sizeToAllocate` is a `uint32_t`
addition. -/
def DynamicBuffer.allocate (db : DynamicBuffer) (renderer : RendererVk)
    (sizeInBytes : Nat) (wantNewBufferFlag : Bool) : AllocateResult :=
  let sizeToAllocate := roundUp sizeInBytes db.mAlignment
  let checkedNextWriteOffset := db.mNextAllocationOffset + sizeToAllocate
  if size64 ≤ checkedNextWriteOffset ∨ db.mSize ≤ checkedNextWriteOffset then
    let flushedRange := if db.mMappedMemory then (db.flush).2 else none
    let retained := db.mRetainedBuffers ++ [⟨db.mBuffer, db.mMemory⟩]
    let newBuffer := renderer.nextHandle
    let newMemory := renderer.nextHandle + 1
    let renderer1 := { renderer with nextHandle := renderer.nextHandle + 2 }
    let db1 : DynamicBuffer :=
      { db with
        mBuffer := newBuffer, mMemory := newMemory,
        mSize := max sizeToAllocate db.mMinSize,
        mMappedMemory := true, mRetainedBuffers := retained,
        mNextAllocationOffset := sizeToAllocate % size32,
        mLastFlushOrInvalidateOffset := 0 }
    { db := db1, renderer := renderer1,
      ptrOut := (newMemory, 0), handleOut := newBuffer, offsetOut := 0,
      newBufferAllocatedOut := if wantNewBufferFlag then some true else none,
      flushedRange := flushedRange }
  else
    { db := { db with
        mNextAllocationOffset :=
          (db.mNextAllocationOffset + sizeToAllocate % size32) % size32 },
      renderer := renderer,
      ptrOut := (db.mMemory, db.mNextAllocationOffset),
      handleOut := db.mBuffer, offsetOut := db.mNextAllocationOffset,
      newBufferAllocatedOut := if wantNewBufferFlag then some false else none,
      flushedRange := none }

/-- The deferred-release entries produced by iterating `releaseObject` over a
retained-buffer list with a fixed serial (two entries per pair, buffer first). -/
def retainedReleaseEntries (serial : Nat) : List BufferAndMemory → List (Nat × Nat)
  | [] => []
  | bm :: rest => (serial, bm.buffer) :: (serial, bm.memory) :: retainedReleaseEntries serial rest

/-- `DynamicBuffer::releaseRetainedBuffers` (lines 238-248): every retained
pair is handed to `releaseObject` with the renderer's current serial, then the
list is cleared. -/
def DynamicBuffer.releaseRetainedBuffers (db : DynamicBuffer) (renderer : RendererVk) :
    DynamicBuffer × RendererVk :=
  let renderer1 := db.mRetainedBuffers.foldl
    (fun r bm =>
      (r.releaseObject r.currentQueueSerial bm.buffer).releaseObject
        r.currentQueueSerial bm.memory)
    renderer
  ({ db with mRetainedBuffers := [] }, renderer1)

/-- Well-formedness of a `DynamicBuffer` state, as maintained by `init` and
`allocate` (offsets are `uint32_t`, the flush window is inside the written
area, and sizes respect the 32-bit accounting discipline). -/
def DBWF (db : DynamicBuffer) : Prop :=
  0 < db.mAlignment ∧
  db.mAlignment ∣ db.mNextAllocationOffset ∧
  db.mLastFlushOrInvalidateOffset ≤ db.mNextAllocationOffset ∧
  db.mNextAllocationOffset < size32 ∧
  db.mSize ≤ size32 ∧
  db.mMinSize ≤ size32

instance (db : DynamicBuffer) : Decidable (DBWF db) := by
  unfold DBWF; infer_instance

/-! Image barriers and recorded commands. -/

/-- `GetBasicLayoutAccessFlags` (lines 43-66).  Layouts outside the switch hit
`UNREACHABLE()` and return 0 in release builds; of the layouts modelled here
only `ShaderReadOnlyOptimal` takes that path. -/
def GetBasicLayoutAccessFlags : VkImageLayout → Nat
  | VkImageLayout.ColorAttachmentOptimal => VK_ACCESS_COLOR_ATTACHMENT_WRITE_BIT
  | VkImageLayout.DepthStencilAttachmentOptimal => VK_ACCESS_DEPTH_STENCIL_ATTACHMENT_WRITE_BIT
  | VkImageLayout.TransferDstOptimal => VK_ACCESS_TRANSFER_WRITE_BIT
  | VkImageLayout.PresentSrc => VK_ACCESS_MEMORY_READ_BIT
  | VkImageLayout.TransferSrcOptimal => VK_ACCESS_TRANSFER_READ_BIT
  | VkImageLayout.Undefined => 0
  | VkImageLayout.General => 0
  | VkImageLayout.Preinitialized => 0
  | VkImageLayout.ShaderReadOnlyOptimal => 0

/-- The source access mask computed by `changeLayoutWithStages`
(lines 775-789): the basic flags of the current layout, OR host-write when the
current layout is preinitialized, OR host-write and transfer-write when the
new layout is shader-read-only-optimal. -/
def srcAccessMaskForLayouts (currentLayout newLayout : VkImageLayout) : Nat :=
  let m0 := GetBasicLayoutAccessFlags currentLayout
  let m1 := if currentLayout = VkImageLayout.Preinitialized then
      m0 ||| VK_ACCESS_HOST_WRITE_BIT else m0
  if newLayout = VkImageLayout.ShaderReadOnlyOptimal then
    m1 ||| (VK_ACCESS_HOST_WRITE_BIT ||| VK_ACCESS_TRANSFER_WRITE_BIT)
  else m1

/-- The destination access mask computed by `changeLayoutWithStages`
(lines 782-794): the basic flags of the new layout, OR shader-read when the
new layout is shader-read-only-optimal, OR depth-stencil-attachment-write when
it is depth-stencil-attachment-optimal. -/
def dstAccessMaskForLayouts (newLayout : VkImageLayout) : Nat :=
  let m0 := GetBasicLayoutAccessFlags newLayout
  let m1 := if newLayout = VkImageLayout.ShaderReadOnlyOptimal then
      m0 ||| VK_ACCESS_SHADER_READ_BIT else m0
  if newLayout = VkImageLayout.DepthStencilAttachmentOptimal then
    m1 ||| VK_ACCESS_DEPTH_STENCIL_ATTACHMENT_WRITE_BIT
  else m1

/-- The fields of a `VkImageMemoryBarrier` as filled in by
`changeLayoutWithStages` (lines 756-772). -/
structure VkImageMemoryBarrier where
  srcAccessMask : Nat
  dstAccessMask : Nat
  oldLayout : VkImageLayout
  newLayout : VkImageLayout
  srcQueueFamilyIndex : Nat
  dstQueueFamilyIndex : Nat
  image : Nat
  aspectMask : Nat
  baseMipLevel : Nat
  levelCount : Nat
  baseArrayLayer : Nat
  layerCount : Nat
deriving DecidableEq

structure VkImageSubresourceLayers where
  aspectMask : Nat
  mipLevel : Nat
  baseArrayLayer : Nat
  layerCount : Nat
deriving DecidableEq

/-- A `VkImageCopy` region; `gl::Offset` and `gl::Extents` components are
modelled as naturals. -/
structure VkImageCopy where
  srcSubresource : VkImageSubresourceLayers
  srcOffset : Nat × Nat × Nat
  dstSubresource : VkImageSubresourceLayers
  dstOffset : Nat × Nat × Nat
  extent : Nat × Nat × Nat
deriving DecidableEq

/-- A `VkBufferCopy` region: `(srcOffset, dstOffset, size)`. -/
structure VkBufferCopy where
  srcOffset : Nat
  dstOffset : Nat
  size : Nat
deriving DecidableEq

/-- The command-buffer recording calls the helpers issue. -/
inductive Command where
  | singleImageBarrier (srcStageMask dstStageMask : Nat) (barrier : VkImageMemoryBarrier)
  | copyImage (srcImage : Nat) (srcLayout : VkImageLayout) (dstImage : Nat)
      (dstLayout : VkImageLayout) (regions : List VkImageCopy)
  | copyBuffer (srcBuffer dstBuffer : Nat) (regions : List VkBufferCopy)
  | drawIndexed (indexCount instanceCount firstIndex vertexOffset firstInstance : Nat)
deriving DecidableEq

/-- Whether a recorded command is an image-memory barrier. -/
def isImageBarrier : Command → Bool
  | Command.singleImageBarrier _ _ _ => true
  | _ => false

/-- Number of image-memory barriers recorded in a command list. -/
def barrierCount (commandBuffer : List Command) : Nat :=
  (commandBuffer.filter isImageBarrier).length

/-- State of `ImageHelper` (fields used by the modelled operations). -/
structure ImageHelper where
  mImage : Nat
  mDeviceMemory : Nat
  mCurrentLayout : VkImageLayout
  mLayerCount : Nat
deriving DecidableEq

/-- `ImageHelper::changeLayoutWithStages` (lines 750-799): fills in one
image-memory barrier covering all mip levels and `mLayerCount` layers, records
it, and updates `mCurrentLayout`. -/
def ImageHelper.changeLayoutWithStages (img : ImageHelper) (aspectMask : Nat)
    (newLayout : VkImageLayout) (srcStageMask dstStageMask : Nat)
    (commandBuffer : List Command) : ImageHelper × List Command :=
  let imageMemoryBarrier : VkImageMemoryBarrier :=
    { srcAccessMask := srcAccessMaskForLayouts img.mCurrentLayout newLayout
      dstAccessMask := dstAccessMaskForLayouts newLayout
      oldLayout := img.mCurrentLayout
      newLayout := newLayout
      srcQueueFamilyIndex := VK_QUEUE_FAMILY_IGNORED
      dstQueueFamilyIndex := VK_QUEUE_FAMILY_IGNORED
      image := img.mImage
      aspectMask := aspectMask
      baseMipLevel := 0
      levelCount := VK_REMAINING_MIP_LEVELS
      baseArrayLayer := 0
      layerCount := img.mLayerCount }
  ({ img with mCurrentLayout := newLayout },
   commandBuffer ++ [Command.singleImageBarrier srcStageMask dstStageMask imageMemoryBarrier])

/-- `ImageHelper::Copy` (lines 854-901): transition each image unless it is
already in its target transfer layout or in the general layout, then record a
single-region image copy. -/
def ImageHelper.Copy (srcImage dstImage : ImageHelper) (srcOffset dstOffset : Nat × Nat × Nat)
    (copySize : Nat × Nat × Nat) (aspectMask : Nat) (commandBuffer : List Command) :
    ImageHelper × ImageHelper × List Command :=
  let (src1, cb1) :=
    if srcImage.mCurrentLayout ≠ VkImageLayout.TransferSrcOptimal ∧
        srcImage.mCurrentLayout ≠ VkImageLayout.General then
      srcImage.changeLayoutWithStages VK_IMAGE_ASPECT_COLOR_BIT
        VkImageLayout.TransferSrcOptimal VK_PIPELINE_STAGE_ALL_COMMANDS_BIT
        VK_PIPELINE_STAGE_TRANSFER_BIT commandBuffer
    else (srcImage, commandBuffer)
  let (dst1, cb2) :=
    if dstImage.mCurrentLayout ≠ VkImageLayout.TransferDstOptimal ∧
        dstImage.mCurrentLayout ≠ VkImageLayout.General then
      dstImage.changeLayoutWithStages VK_IMAGE_ASPECT_COLOR_BIT
        VkImageLayout.TransferDstOptimal VK_PIPELINE_STAGE_ALL_COMMANDS_BIT
        VK_PIPELINE_STAGE_TRANSFER_BIT cb1
    else (dstImage, cb1)
  let region : VkImageCopy :=
    { srcSubresource := ⟨aspectMask, 0, 0, 1⟩
      srcOffset := srcOffset
      dstSubresource := ⟨aspectMask, 0, 0, 1⟩
      dstOffset := dstOffset
      extent := copySize }
  (src1, dst1,
   cb2 ++ [Command.copyImage src1.mImage src1.mCurrentLayout dst1.mImage dst1.mCurrentLayout
     [region]])

/-- The access-mask table of spec §4.3.2, written from the spec's words for
comparison with the code-derived masks.  Layouts outside the table (only
shader-read-only-optimal here) carry no base flags, per the spec's
"preinitialized to shader-read-only" example. -/
def specTableAccessFlags : VkImageLayout → Nat
  | VkImageLayout.ColorAttachmentOptimal => VK_ACCESS_COLOR_ATTACHMENT_WRITE_BIT
  | VkImageLayout.DepthStencilAttachmentOptimal => VK_ACCESS_DEPTH_STENCIL_ATTACHMENT_WRITE_BIT
  | VkImageLayout.TransferDstOptimal => VK_ACCESS_TRANSFER_WRITE_BIT
  | VkImageLayout.TransferSrcOptimal => VK_ACCESS_TRANSFER_READ_BIT
  | VkImageLayout.PresentSrc => VK_ACCESS_MEMORY_READ_BIT
  | VkImageLayout.Undefined => 0
  | VkImageLayout.General => 0
  | VkImageLayout.Preinitialized => 0
  | VkImageLayout.ShaderReadOnlyOptimal => 0

/-- The source access mask as the spec's words describe it. -/
def specSrcAccessMask (oldLayout newLayout : VkImageLayout) : Nat :=
  specTableAccessFlags oldLayout |||
  (if oldLayout = VkImageLayout.Preinitialized then VK_ACCESS_HOST_WRITE_BIT else 0) |||
  (if newLayout = VkImageLayout.ShaderReadOnlyOptimal then
     VK_ACCESS_HOST_WRITE_BIT ||| VK_ACCESS_TRANSFER_WRITE_BIT else 0)

/-- The destination access mask as the spec's words describe it. -/
def specDstAccessMask (newLayout : VkImageLayout) : Nat :=
  specTableAccessFlags newLayout |||
  (if newLayout = VkImageLayout.ShaderReadOnlyOptimal then VK_ACCESS_SHADER_READ_BIT else 0) |||
  (if newLayout = VkImageLayout.DepthStencilAttachmentOptimal then
     VK_ACCESS_DEPTH_STENCIL_ATTACHMENT_WRITE_BIT else 0)

/-! The dynamic descriptor pool. -/

/-- The descriptor types handled by `GetDescriptorSetIndexfromType`. -/
inductive VkDescriptorType where
  | UniformBufferDynamic
  | CombinedImageSampler
deriving DecidableEq

/-- Modelled from the spec: the fixed descriptor-set slot indices (uniforms,
textures) are constants declared in headers missing from `src/`; the spec
fixes only that each known descriptor type maps to its own fixed slot. -/
def kUniformsDescriptorSetIndex : Fin 2 := 0

def kTextureDescriptorSetIndex : Fin 2 := 1

/-- `GetDescriptorSetIndexfromType` (lines 80-92). -/
def GetDescriptorSetIndexfromType : VkDescriptorType → Fin 2
  | VkDescriptorType.UniformBufferDynamic => kUniformsDescriptorSetIndex
  | VkDescriptorType.CombinedImageSampler => kTextureDescriptorSetIndex

/-- A `VkDescriptorPoolSize` recipe entry. -/
structure VkDescriptorPoolSize where
  type : VkDescriptorType
  descriptorCount : Nat
deriving DecidableEq

/-- State of `DynamicDescriptorPool` (lines 280-363).  The per-slot free
counters are modelled as integers so that the spec's non-negativity invariant
is expressible. -/
structure DynamicDescriptorPool where
  mMaxSetsPerPool : Nat
  mCurrentSetsCount : Nat
  mPoolSizes : List VkDescriptorPoolSize
  mFreeDescriptorSets : Fin 2 → Int
  mCurrentDescriptorPool : Nat

/-- `DynamicDescriptorPool::allocateNewPool` (lines 335-358): zero the free
counters and the set count, then add each pool size's `descriptorCount` into
the slot of its type; a fresh pool object replaces the current one. -/
def DynamicDescriptorPool.allocateNewPool (p : DynamicDescriptorPool) (freshPool : Nat) :
    DynamicDescriptorPool :=
  { p with
    mFreeDescriptorSets := p.mPoolSizes.foldl
      (fun f ps => Function.update f (GetDescriptorSetIndexfromType ps.type)
        (f (GetDescriptorSetIndexfromType ps.type) + (ps.descriptorCount : Int)))
      (fun _ => 0),
    mCurrentSetsCount := 0, mCurrentDescriptorPool := freshPool }

/-- `DynamicDescriptorPool::allocateSets` (lines 301-333): when the slot's free
count is below the request or the set count has reached `mMaxSetsPerPool`, the
current pool is deferred-released with the current serial and a new pool is
allocated; then the free counter is decremented by the request and the set
count incremented.  The returned boolean reports whether a rotation
happened. -/
def DynamicDescriptorPool.allocateSets (p : DynamicDescriptorPool) (renderer : RendererVk)
    (descriptorSetCount : Nat) (descriptorSetIndex : Fin 2) :
    DynamicDescriptorPool × RendererVk × Bool :=
  let pr :=
    if p.mFreeDescriptorSets descriptorSetIndex < (descriptorSetCount : Int) ∨
        p.mMaxSetsPerPool ≤ p.mCurrentSetsCount then
      let renderer' := renderer.releaseObject renderer.currentQueueSerial
        p.mCurrentDescriptorPool
      (p.allocateNewPool renderer'.nextHandle,
       { renderer' with nextHandle := renderer'.nextHandle + 1 })
    else (p, renderer)
  ({ pr.1 with
      mFreeDescriptorSets := Function.update pr.1.mFreeDescriptorSets descriptorSetIndex
        (pr.1.mFreeDescriptorSets descriptorSetIndex - descriptorSetCount),
      mCurrentSetsCount := pr.1.mCurrentSetsCount + 1 },
   pr.2,
   decide (p.mFreeDescriptorSets descriptorSetIndex < (descriptorSetCount : Int) ∨
     p.mMaxSetsPerPool ≤ p.mCurrentSetsCount))

/-- Sum of `poolSizes[*].descriptorCount` bucketed by descriptor-set slot
index (the spec's description of the counters set by `allocateNewPool`). -/
def bucketCapacity : List VkDescriptorPoolSize → Fin 2 → Int
  | [], _ => 0
  | ps :: rest, i =>
      (if GetDescriptorSetIndexfromType ps.type = i then (ps.descriptorCount : Int) else 0) +
        bucketCapacity rest i

/-- Run a sequence of `allocateSets` calls, each given as (slot index, set
count). -/
def runAllocateSets : List (Fin 2 × Nat) → DynamicDescriptorPool → RendererVk →
    DynamicDescriptorPool × RendererVk
  | [], p, r => (p, r)
  | (i, c) :: rest, p, r =>
      let res := p.allocateSets r c i
      runAllocateSets rest res.1 res.2.1

/-- The descriptor-accounting invariant of spec §3: free counters never
negative, set count bounded by `mMaxSetsPerPool`. -/
def DDPInv (p : DynamicDescriptorPool) : Prop :=
  (∀ i : Fin 2, 0 ≤ p.mFreeDescriptorSets i) ∧
    p.mCurrentSetsCount ≤ p.mMaxSetsPerPool

instance (p : DynamicDescriptorPool) : Decidable (DDPInv p) := by
  unfold DDPInv; infer_instance

/-! The line-loop index-buffer synthesizer. -/

def kLineLoopDynamicBufferUsage : Nat :=
  VK_BUFFER_USAGE_INDEX_BUFFER_BIT ||| VK_BUFFER_USAGE_TRANSFER_DST_BIT

def kLineLoopDynamicBufferMinSize : Nat := 1024 * 1024

/-- State of `LineLoopHelper`: one embedded dynamic index buffer. -/
structure LineLoopHelper where
  mDynamicIndexBuffer : DynamicBuffer
deriving DecidableEq

/-- The `LineLoopHelper` constructor (lines 366-375): the dynamic buffer uses
index-buffer + transfer-dst usage and an alignment of `sizeof(uint32_t)`. -/
def LineLoopHelper.new (renderer : RendererVk) : LineLoopHelper :=
  ⟨(DynamicBuffer.new kLineLoopDynamicBufferUsage kLineLoopDynamicBufferMinSize).init 4 renderer⟩

/-- Outputs of `getIndexBufferForDrawArrays`; `writtenIndices` is the sequence
of `uint32` values stored through the returned pointer, and `allocateBytes`
the size requested from the dynamic buffer. -/
structure DrawArraysResult where
  llh : LineLoopHelper
  renderer : RendererVk
  bufferHandleOut : Nat
  offsetOut : Nat
  writtenIndices : List Nat
  allocateBytes : Nat
deriving DecidableEq

/-- `LineLoopHelper::getIndexBufferForDrawArrays` (lines 379-411): release the
retained buffers, allocate `4 * (vertexCount + 1)` bytes, write the indices
`first, first+1, …` up to the `uint32` sum `clampedVertexCount + first`
(exclusive) followed by `first`, and flush.  `getClampedVertexCount<uint32_t>`
clamps the vertex count to the `uint32` range, and `firstVertex` (a `GLint`,
here taken non-negative) is truncated to `uint32`. -/
def LineLoopHelper.getIndexBufferForDrawArrays (llh : LineLoopHelper) (renderer : RendererVk)
    (firstVertex vertexCount : Nat) : DrawArraysResult :=
  let allocateBytes := 4 * (vertexCount + 1)
  let dbr := llh.mDynamicIndexBuffer.releaseRetainedBuffers renderer
  let res := dbr.1.allocate dbr.2 allocateBytes false
  let clampedVertexCount := min vertexCount (size32 - 1)
  let unsignedFirstVertex := firstVertex % size32
  let loopBound := (clampedVertexCount + unsignedFirstVertex) % size32
  { llh := ⟨(res.db.flush).1⟩, renderer := res.renderer, bufferHandleOut := res.handleOut,
    offsetOut := res.offsetOut,
    writtenIndices :=
      (List.range (loopBound - unsignedFirstVertex)).map (fun k => unsignedFirstVertex + k) ++
        [unsignedFirstVertex],
    allocateBytes := allocateBytes }

/-- Outputs of `getIndexBufferForElementArrayBuffer`. -/
structure ElementArrayBufferResult where
  llh : LineLoopHelper
  renderer : RendererVk
  bufferHandleOut : Nat
  bufferOffsetOut : Nat
  commandBuffer : List Command
  allocateBytes : Nat
deriving DecidableEq

/-- `LineLoopHelper::getIndexBufferForElementArrayBuffer` (lines 413-450):
release the retained buffers, allocate `(indexCount + 1) * unit` bytes, record
two buffer copies (the `indexCount` source units, then one unit from the
source start into the tail slot), and flush.  `beginWriteResource` and
`addReadDependency` touch only external command-buffer plumbing and are not
modelled beyond the recorded copy. -/
def LineLoopHelper.getIndexBufferForElementArrayBuffer (llh : LineLoopHelper)
    (renderer : RendererVk) (srcBuffer : Nat) (indexType : VkIndexType) (indexCount : Nat)
    (elementArrayOffset : Nat) (commandBuffer : List Command) : ElementArrayBufferResult :=
  let unitSize := if indexType = VkIndexType.Uint16 then 2 else 4
  let allocateBytes := unitSize * (indexCount + 1)
  let dbr := llh.mDynamicIndexBuffer.releaseRetainedBuffers renderer
  let res := dbr.1.allocate dbr.2 allocateBytes false
  let copy1 : VkBufferCopy := ⟨elementArrayOffset, res.offsetOut, indexCount * unitSize⟩
  let copy2 : VkBufferCopy :=
    ⟨elementArrayOffset, res.offsetOut + indexCount * unitSize, unitSize⟩
  { llh := ⟨(res.db.flush).1⟩, renderer := res.renderer, bufferHandleOut := res.handleOut,
    bufferOffsetOut := res.offsetOut,
    commandBuffer := commandBuffer ++ [Command.copyBuffer srcBuffer res.handleOut [copy1, copy2]],
    allocateBytes := allocateBytes }

/-- Outputs of `getIndexBufferForClientElementArray`; `writtenIndices` is the
sequence of destination index values (each one `unitSize` bytes wide). -/
structure ClientElementArrayResult where
  llh : LineLoopHelper
  renderer : RendererVk
  bufferHandleOut : Nat
  bufferOffsetOut : Nat
  writtenIndices : List Nat
  allocateBytes : Nat
deriving DecidableEq

/-- `LineLoopHelper::getIndexBufferForClientElementArray` (lines 452-492):
allocate `(indexCount + 1) * unit` bytes (without releasing retained buffers
first), copy the `indexCount` client indices followed by the first index, and
flush.  For unsigned-byte sources each byte is widened to `uint16`, which
preserves its value, so at the level of index values both branches write the
source values followed by the first one. -/
def LineLoopHelper.getIndexBufferForClientElementArray (llh : LineLoopHelper)
    (renderer : RendererVk) (typ : GLIndexType) (indexCount : Nat) (srcData : List Nat) :
    ClientElementArrayResult :=
  let indexType := GetIndexType typ
  let unitSize := if indexType = VkIndexType.Uint16 then 2 else 4
  let allocateBytes := unitSize * (indexCount + 1)
  let res := llh.mDynamicIndexBuffer.allocate renderer allocateBytes false
  { llh := ⟨(res.db.flush).1⟩, renderer := res.renderer, bufferHandleOut := res.handleOut,
    bufferOffsetOut := res.offsetOut,
    writtenIndices :=
      if typ = GLIndexType.UnsignedByte then
        (List.range indexCount).map (fun i => srcData.getD i 0) ++ [srcData.getD 0 0]
      else
        (List.range indexCount).map (fun i => srcData.getD i 0) ++ [srcData.getD 0 0],
    allocateBytes := allocateBytes }

/-- `LineLoopHelper::Draw` (lines 500-505): records
`drawIndexed(count + 1, 1, 0, 0, 0)`; the increment is a `uint32` addition. -/
def LineLoopHelper.Draw (count : Nat) (commandBuffer : List Command) : List Command :=
  commandBuffer ++ [Command.drawIndexed ((count + 1) % size32) 1 0 0 0]

/-- The exact condition under which `DynamicBuffer::allocate` rotates (line
139): the checked `size_t` sum overflows, or it reaches or exceeds the current
backing size. -/
def rotationCondition (db : DynamicBuffer) (sizeInBytes : Nat) : Prop :=
  size64 ≤ db.mNextAllocationOffset + roundUp sizeInBytes db.mAlignment ∨
    db.mSize ≤ db.mNextAllocationOffset + roundUp sizeInBytes db.mAlignment

instance (db : DynamicBuffer) (s : Nat) : Decidable (rotationCondition db s) := by
  unfold rotationCondition; infer_instance

/-! Concrete states used by the witness and counterexample theorems. -/

/-- A dynamic buffer whose next request of 4 bytes fits exactly (4 + 4 = size 8). -/
def dbC1 : DynamicBuffer :=
  { mUsage := 0, mMinSize := 8, mNextAllocationOffset := 4,
    mLastFlushOrInvalidateOffset := 0, mSize := 8, mAlignment := 4,
    mMappedMemory := true, mBuffer := 1, mMemory := 2, mRetainedBuffers := [] }

def rC1 : RendererVk :=
  { nonCoherentAtomSize := 1, currentQueueSerial := 5, releaseQueue := [], nextHandle := 3 }

/-- The same buffer with the bump pointer at 0, so a 4-byte request fits. -/
def dbC1b : DynamicBuffer := { dbC1 with mNextAllocationOffset := 0 }

/-- An image helper sitting in the preinitialized layout. -/
def imgC2 : ImageHelper :=
  { mImage := 3, mDeviceMemory := 4, mCurrentLayout := VkImageLayout.Preinitialized,
    mLayerCount := 1 }

/-- A descriptor pool configured as in spec scenario S3/S4:
`maxSetsPerPool = 2`, pool sizes uniforms:8 and textures:8, freshly rotated. -/
def pC3 : DynamicDescriptorPool :=
  DynamicDescriptorPool.allocateNewPool
    { mMaxSetsPerPool := 2, mCurrentSetsCount := 0,
      mPoolSizes := [⟨VkDescriptorType.UniformBufferDynamic, 8⟩,
                     ⟨VkDescriptorType.CombinedImageSampler, 8⟩],
      mFreeDescriptorSets := fun _ => 0, mCurrentDescriptorPool := 0 } 1

def rC3 : RendererVk :=
  { nonCoherentAtomSize := 1, currentQueueSerial := 4, releaseQueue := [], nextHandle := 2 }

/-- Three single-set allocations from the uniforms slot (spec scenario S3). -/
def callsC3 : List (Fin 2 × Nat) := [(0, 1), (0, 1), (0, 1)]

/-- The pool after one `allocateSets(uniforms, 5)` call (spec scenario S4). -/
def pC3b : DynamicDescriptorPool := (pC3.allocateSets rC3 5 0).1

/-- A dynamic buffer state where an 8-byte request cannot fit (size 4). -/
def dbC4 : DynamicBuffer :=
  { mUsage := 0, mMinSize := 4, mNextAllocationOffset := 0,
    mLastFlushOrInvalidateOffset := 0, mSize := 4, mAlignment := 4,
    mMappedMemory := true, mBuffer := 1, mMemory := 2, mRetainedBuffers := [] }

def rC4 : RendererVk :=
  { nonCoherentAtomSize := 1, currentQueueSerial := 9, releaseQueue := [], nextHandle := 5 }

/-- A fresh line-loop helper (no backing buffer yet, alignment 4). -/
def llhC5 : LineLoopHelper :=
  ⟨{ mUsage := kLineLoopDynamicBufferUsage, mMinSize := kLineLoopDynamicBufferMinSize,
     mNextAllocationOffset := 0, mLastFlushOrInvalidateOffset := 0, mSize := 0,
     mAlignment := 4, mMappedMemory := false, mBuffer := 0, mMemory := 0,
     mRetainedBuffers := [] }⟩

def rC5 : RendererVk :=
  { nonCoherentAtomSize := 1, currentQueueSerial := 0, releaseQueue := [], nextHandle := 1 }

/-- A dynamic buffer mid-frame: alignment 256, 1 MiB backing, 512 bytes used. -/
def dbC6 : DynamicBuffer :=
  { mUsage := 0, mMinSize := 1048576, mNextAllocationOffset := 512,
    mLastFlushOrInvalidateOffset := 0, mSize := 1048576, mAlignment := 256,
    mMappedMemory := true, mBuffer := 1, mMemory := 2, mRetainedBuffers := [] }

def rC6 : RendererVk :=
  { nonCoherentAtomSize := 64, currentQueueSerial := 2, releaseQueue := [], nextHandle := 3 }

/-- A dynamic buffer whose flush window is empty (`lastFlushed = nextOffset`). -/
def dbC7 : DynamicBuffer :=
  { mUsage := 0, mMinSize := 16, mNextAllocationOffset := 8,
    mLastFlushOrInvalidateOffset := 8, mSize := 16, mAlignment := 4,
    mMappedMemory := true, mBuffer := 1, mMemory := 2, mRetainedBuffers := [] }

/-- A dynamic buffer with 4 unflushed bytes. -/
def dbC7b : DynamicBuffer := { dbC7 with mLastFlushOrInvalidateOffset := 4 }

/-- Source and destination images that are already in their transfer layouts. -/
def srcC8 : ImageHelper :=
  { mImage := 1, mDeviceMemory := 2, mCurrentLayout := VkImageLayout.TransferSrcOptimal,
    mLayerCount := 1 }

def dstC8 : ImageHelper :=
  { mImage := 3, mDeviceMemory := 4, mCurrentLayout := VkImageLayout.TransferDstOptimal,
    mLayerCount := 1 }

/-- A line-loop helper with a live 1 MiB backing, used at spec scenario S7. -/
def llhC9 : LineLoopHelper :=
  ⟨{ mUsage := kLineLoopDynamicBufferUsage, mMinSize := kLineLoopDynamicBufferMinSize,
     mNextAllocationOffset := 0, mLastFlushOrInvalidateOffset := 0, mSize := 1048576,
     mAlignment := 4, mMappedMemory := true, mBuffer := 1, mMemory := 2,
     mRetainedBuffers := [] }⟩

def rC9 : RendererVk :=
  { nonCoherentAtomSize := 1, currentQueueSerial := 3, releaseQueue := [], nextHandle := 3 }

/-! Helper lemmas about `DynamicBuffer.allocate` and the release queue. -/

theorem allocate_rotate_eq (db : DynamicBuffer) (r : RendererVk) (s : Nat) (w : Bool)
    (h : rotationCondition db s) :
    db.allocate r s w =
      { db := { db with
          mBuffer := r.nextHandle, mMemory := r.nextHandle + 1,
          mSize := max (roundUp s db.mAlignment) db.mMinSize,
          mMappedMemory := true,
          mRetainedBuffers := db.mRetainedBuffers ++ [⟨db.mBuffer, db.mMemory⟩],
          mNextAllocationOffset := roundUp s db.mAlignment % size32,
          mLastFlushOrInvalidateOffset := 0 },
        renderer := { r with nextHandle := r.nextHandle + 2 },
        ptrOut := (r.nextHandle + 1, 0), handleOut := r.nextHandle, offsetOut := 0,
        newBufferAllocatedOut := if w then some true else none,
        flushedRange := if db.mMappedMemory then (db.flush).2 else none } := by
  unfold rotationCondition at h
  unfold DynamicBuffer.allocate
  rw [if_pos h]

theorem allocate_fit_eq (db : DynamicBuffer) (r : RendererVk) (s : Nat) (w : Bool)
    (h : ¬ rotationCondition db s) :
    db.allocate r s w =
      { db := { db with
          mNextAllocationOffset :=
            (db.mNextAllocationOffset + roundUp s db.mAlignment % size32) % size32 },
        renderer := r,
        ptrOut := (db.mMemory, db.mNextAllocationOffset),
        handleOut := db.mBuffer, offsetOut := db.mNextAllocationOffset,
        newBufferAllocatedOut := if w then some false else none,
        flushedRange := none } := by
  unfold rotationCondition at h
  unfold DynamicBuffer.allocate
  rw [if_neg h]

theorem releaseRetained_foldl (l : List BufferAndMemory) (r : RendererVk) :
    l.foldl (fun r bm =>
        (r.releaseObject r.currentQueueSerial bm.buffer).releaseObject
          r.currentQueueSerial bm.memory) r
      = { r with releaseQueue :=
            r.releaseQueue ++ retainedReleaseEntries r.currentQueueSerial l } := by
  induction l generalizing r with
  | nil => simp [retainedReleaseEntries]
  | cons bm rest ih =>
      simp only [List.foldl_cons]
      rw [ih]
      simp [RendererVk.releaseObject, retainedReleaseEntries]

theorem releaseRetainedBuffers_eq (db : DynamicBuffer) (r : RendererVk) :
    db.releaseRetainedBuffers r =
      ({ db with mRetainedBuffers := [] },
       { r with releaseQueue :=
           r.releaseQueue ++ retainedReleaseEntries r.currentQueueSerial db.mRetainedBuffers }) := by
  unfold DynamicBuffer.releaseRetainedBuffers
  rw [releaseRetained_foldl]

/-- Claim C1 (amended: the code rotates when `nextOffset + roundUp(size,
alignment)` would reach *or* exceed the current backing size, not only when it
would strictly exceed it): `DynamicBuffer.allocate` rotates — flushes the
current backing if mapped, retires the current (buffer, memory) pair, creates
a new backing of size `max(roundUp(size, alignment), minSize)` and resets
`nextOffset` and `lastFlushedOffset` to 0 — exactly when the checked addition
overflows or reaches or exceeds the backing size; otherwise the current
backing is reused and no new buffer is created. -/
theorem C1_allocate_rotates_iff :
    (∀ (db : DynamicBuffer) (r : RendererVk) (s : Nat) (w : Bool),
      rotationCondition db s →
        ((db.allocate r s w).flushedRange
            = (if db.mMappedMemory then (db.flush).2 else none) ∧
         (db.allocate r s w).db.mRetainedBuffers
            = db.mRetainedBuffers ++ [⟨db.mBuffer, db.mMemory⟩] ∧
         (db.allocate r s w).db.mBuffer = r.nextHandle ∧
         (db.allocate r s w).db.mMemory = r.nextHandle + 1 ∧
         (db.allocate r s w).db.mSize = max (roundUp s db.mAlignment) db.mMinSize ∧
         (db.allocate r s w).offsetOut = 0 ∧
         (db.allocate r s w).db.mLastFlushOrInvalidateOffset = 0 ∧
         (db.allocate r s w).db.mNextAllocationOffset = roundUp s db.mAlignment % size32 ∧
         (db.allocate r s w).newBufferAllocatedOut = (if w then some true else none))) ∧
    (∀ (db : DynamicBuffer) (r : RendererVk) (s : Nat) (w : Bool),
      ¬ rotationCondition db s →
        ((db.allocate r s w).db.mBuffer = db.mBuffer ∧
         (db.allocate r s w).db.mMemory = db.mMemory ∧
         (db.allocate r s w).db.mSize = db.mSize ∧
         (db.allocate r s w).db.mRetainedBuffers = db.mRetainedBuffers ∧
         (db.allocate r s w).renderer = r ∧
         (db.allocate r s w).flushedRange = none ∧
         (db.allocate r s w).handleOut = db.mBuffer ∧
         (db.allocate r s w).newBufferAllocatedOut = (if w then some false else none))) := by
  constructor
  · intro db r s w h
    rw [allocate_rotate_eq db r s w h]
    simp
  · intro db r s w h
    rw [allocate_fit_eq db r s w h]
    simp

/-- Claim C1 counterexample: with an 8-byte backing, bump pointer at 4 and a
4-byte request, `nextOffset + roundUp(size, alignment)` equals the backing
size — it does not exceed it and the addition does not overflow — yet the
code rotates: a new buffer is created and the old pair is retired. -/
theorem C1_counterexample :
    dbC1.mNextAllocationOffset + roundUp 4 dbC1.mAlignment ≤ dbC1.mSize ∧
    dbC1.mNextAllocationOffset + roundUp 4 dbC1.mAlignment < size64 ∧
    (dbC1.allocate rC1 4 true).newBufferAllocatedOut = some true ∧
    (dbC1.allocate rC1 4 true).db.mBuffer ≠ dbC1.mBuffer ∧
    (dbC1.allocate rC1 4 true).db.mRetainedBuffers = [⟨dbC1.mBuffer, dbC1.mMemory⟩] := by
  decide

/-- Claim C1 witness: both branches of the amended claim at concrete inputs. -/
theorem C1_witness :
    rotationCondition dbC1 4 ∧ ¬ rotationCondition dbC1b 4 ∧
    (dbC1.allocate rC1 4 true).offsetOut = 0 ∧
    (dbC1b.allocate rC1 4 true).db.mBuffer = dbC1b.mBuffer :=
  ⟨by decide, by decide,
   (C1_allocate_rotates_iff.1 dbC1 rC1 4 true (by decide)).2.2.2.2.2.1,
   (C1_allocate_rotates_iff.2 dbC1b rC1 4 true (by decide)).1⟩

/-- Claim C7: `flush` is a no-op when `lastFlushedOffset` equals `nextOffset`;
otherwise it flushes exactly the range `[lastFlushedOffset, nextOffset)` and
advances `lastFlushedOffset` to `nextOffset`; a second flush right after a
flush is a no-op. -/
theorem C7_flush_idempotent (db : DynamicBuffer) :
    (db.mLastFlushOrInvalidateOffset = db.mNextAllocationOffset → db.flush = (db, none)) ∧
    (db.mLastFlushOrInvalidateOffset < db.mNextAllocationOffset →
      db.flush = ({ db with mLastFlushOrInvalidateOffset := db.mNextAllocationOffset },
        some (db.mMemory, db.mLastFlushOrInvalidateOffset,
          db.mNextAllocationOffset - db.mLastFlushOrInvalidateOffset))) ∧
    (db.flush).1.flush = ((db.flush).1, none) := by
  refine ⟨?_, ?_, ?_⟩
  · intro h
    unfold DynamicBuffer.flush
    rw [if_neg (by omega)]
  · intro h
    unfold DynamicBuffer.flush
    rw [if_pos h]
  · unfold DynamicBuffer.flush
    by_cases h : db.mLastFlushOrInvalidateOffset < db.mNextAllocationOffset
    · rw [if_pos h]
      simp
    · rw [if_neg h]
      simp only
      rw [if_neg h]

/-- Claim C7 witness: an empty flush window is a no-op; a 4-byte window is
flushed exactly and advances the flushed offset. -/
theorem C7_witness :
    dbC7.flush = (dbC7, none) ∧
    dbC7b.flush = ({ dbC7b with mLastFlushOrInvalidateOffset := dbC7b.mNextAllocationOffset },
      some (dbC7b.mMemory, dbC7b.mLastFlushOrInvalidateOffset,
        dbC7b.mNextAllocationOffset - dbC7b.mLastFlushOrInvalidateOffset)) :=
  ⟨(C7_flush_idempotent dbC7).1 rfl, (C7_flush_idempotent dbC7b).2.1 (by decide)⟩

theorem retainedReleaseEntries_append (serial : Nat) (l1 l2 : List BufferAndMemory) :
    retainedReleaseEntries serial (l1 ++ l2)
      = retainedReleaseEntries serial l1 ++ retainedReleaseEntries serial l2 := by
  induction l1 with
  | nil => rfl
  | cons bm rest ih => simp [retainedReleaseEntries, ih]

/-- Claim C4 (amended: right after the rotating call the superseded pair sits
in `mRetainedBuffers`, not yet in the deferred-release queue; the next
`releaseRetainedBuffers` call transfers it there tagged with the current
serial): when a request does not fit, the call returns a buffer handle
different from the previous one, sets the new-buffer flag when requested,
returns offset 0, and appends the superseded pair to the retained list. -/
theorem C4_rotation_outputs (db : DynamicBuffer) (r : RendererVk) (s : Nat)
    (hrot : rotationCondition db s) (hfresh : db.mBuffer < r.nextHandle) :
    (db.allocate r s true).handleOut ≠ db.mBuffer ∧
    (db.allocate r s true).newBufferAllocatedOut = some true ∧
    (db.allocate r s true).offsetOut = 0 ∧
    (⟨db.mBuffer, db.mMemory⟩ : BufferAndMemory) ∈ (db.allocate r s true).db.mRetainedBuffers ∧
    ((db.allocate r s true).renderer.currentQueueSerial, db.mBuffer)
        ∈ ((db.allocate r s true).db.releaseRetainedBuffers
            (db.allocate r s true).renderer).2.releaseQueue := by
  rw [allocate_rotate_eq db r s true hrot]
  refine ⟨by simpa using Nat.ne_of_lt' hfresh, rfl, rfl, by simp, ?_⟩
  rw [releaseRetainedBuffers_eq]
  simp [retainedReleaseEntries_append, retainedReleaseEntries]

/-- Claim C4 counterexample: a rotating allocation leaves the deferred-release
queue untouched (still empty) — the superseded buffer handle is not in it but
in `mRetainedBuffers`. -/
theorem C4_counterexample :
    rotationCondition dbC4 8 ∧
    (dbC4.allocate rC4 8 true).newBufferAllocatedOut = some true ∧
    (dbC4.allocate rC4 8 true).handleOut ≠ dbC4.mBuffer ∧
    (dbC4.allocate rC4 8 true).renderer.releaseQueue = [] ∧
    (dbC4.allocate rC4 8 true).db.mRetainedBuffers = [⟨dbC4.mBuffer, dbC4.mMemory⟩] := by
  decide

/-- Claim C4 witness: the amended claim at a concrete rotating allocation. -/
theorem C4_witness :
    (dbC4.allocate rC4 8 true).handleOut ≠ dbC4.mBuffer ∧
    (dbC4.allocate rC4 8 true).offsetOut = 0 ∧
    ((dbC4.allocate rC4 8 true).renderer.currentQueueSerial, dbC4.mBuffer)
        ∈ ((dbC4.allocate rC4 8 true).db.releaseRetainedBuffers
            (dbC4.allocate rC4 8 true).renderer).2.releaseQueue :=
  ⟨(C4_rotation_outputs dbC4 rC4 8 (by decide) (by decide)).1,
   (C4_rotation_outputs dbC4 rC4 8 (by decide) (by decide)).2.2.1,
   (C4_rotation_outputs dbC4 rC4 8 (by decide) (by decide)).2.2.2.2⟩

theorem src_mask_agrees : ∀ oldLayout newLayout : VkImageLayout,
    srcAccessMaskForLayouts oldLayout newLayout = specSrcAccessMask oldLayout newLayout := by
  decide

theorem dst_mask_agrees : ∀ newLayout : VkImageLayout,
    dstAccessMaskForLayouts newLayout = specDstAccessMask newLayout := by
  decide

/-- Claim C2: after `changeLayoutWithStages(_, L, _, _, _)` the tracked layout
equals `L` and exactly one image-memory barrier has been recorded whose source
and destination access masks are the spec table values for the old layout and
for `L`, with the preinitialized, shader-read-only and depth-stencil
adjustments; in particular preinitialized → shader-read-only-optimal gives
source mask host-write ∪ transfer-write and destination mask shader-read. -/
theorem C2_changeLayout_spec (img : ImageHelper) (aspectMask : Nat)
    (newLayout : VkImageLayout) (srcStageMask dstStageMask : Nat) (cb : List Command)
    (_h : img.mCurrentLayout ≠ VkImageLayout.ShaderReadOnlyOptimal) :
    (img.changeLayoutWithStages aspectMask newLayout srcStageMask dstStageMask cb).1.mCurrentLayout
        = newLayout ∧
    (img.changeLayoutWithStages aspectMask newLayout srcStageMask dstStageMask cb).2
        = cb ++ [Command.singleImageBarrier srcStageMask dstStageMask
            { srcAccessMask := specSrcAccessMask img.mCurrentLayout newLayout
              dstAccessMask := specDstAccessMask newLayout
              oldLayout := img.mCurrentLayout
              newLayout := newLayout
              srcQueueFamilyIndex := VK_QUEUE_FAMILY_IGNORED
              dstQueueFamilyIndex := VK_QUEUE_FAMILY_IGNORED
              image := img.mImage
              aspectMask := aspectMask
              baseMipLevel := 0
              levelCount := VK_REMAINING_MIP_LEVELS
              baseArrayLayer := 0
              layerCount := img.mLayerCount }] ∧
    (img.mCurrentLayout = VkImageLayout.Preinitialized →
      newLayout = VkImageLayout.ShaderReadOnlyOptimal →
        specSrcAccessMask img.mCurrentLayout newLayout
            = (VK_ACCESS_HOST_WRITE_BIT ||| VK_ACCESS_TRANSFER_WRITE_BIT) ∧
          specDstAccessMask newLayout = VK_ACCESS_SHADER_READ_BIT) := by
  refine ⟨rfl, ?_, ?_⟩
  · unfold ImageHelper.changeLayoutWithStages
    rw [src_mask_agrees, dst_mask_agrees]
  · intro h1 h2
    rw [h1, h2]
    decide

/-- Claim C2 witness: the preinitialized → shader-read-only transition at a
concrete image (spec scenario S5). -/
theorem C2_witness :
    (imgC2.changeLayoutWithStages VK_IMAGE_ASPECT_COLOR_BIT VkImageLayout.ShaderReadOnlyOptimal
        VK_PIPELINE_STAGE_ALL_COMMANDS_BIT VK_PIPELINE_STAGE_TRANSFER_BIT []).1.mCurrentLayout
      = VkImageLayout.ShaderReadOnlyOptimal ∧
    specSrcAccessMask imgC2.mCurrentLayout VkImageLayout.ShaderReadOnlyOptimal
      = (VK_ACCESS_HOST_WRITE_BIT ||| VK_ACCESS_TRANSFER_WRITE_BIT) ∧
    specDstAccessMask VkImageLayout.ShaderReadOnlyOptimal = VK_ACCESS_SHADER_READ_BIT :=
  ⟨(C2_changeLayout_spec imgC2 VK_IMAGE_ASPECT_COLOR_BIT VkImageLayout.ShaderReadOnlyOptimal
      VK_PIPELINE_STAGE_ALL_COMMANDS_BIT VK_PIPELINE_STAGE_TRANSFER_BIT [] (by decide)).1,
   ((C2_changeLayout_spec imgC2 VK_IMAGE_ASPECT_COLOR_BIT VkImageLayout.ShaderReadOnlyOptimal
      VK_PIPELINE_STAGE_ALL_COMMANDS_BIT VK_PIPELINE_STAGE_TRANSFER_BIT [] (by decide)).2.2
        rfl rfl).1,
   ((C2_changeLayout_spec imgC2 VK_IMAGE_ASPECT_COLOR_BIT VkImageLayout.ShaderReadOnlyOptimal
      VK_PIPELINE_STAGE_ALL_COMMANDS_BIT VK_PIPELINE_STAGE_TRANSFER_BIT [] (by decide)).2.2
        rfl rfl).2⟩

theorem barrierCount_append (l1 l2 : List Command) :
    barrierCount (l1 ++ l2) = barrierCount l1 + barrierCount l2 := by
  simp [barrierCount, List.filter_append]

/-- Claim C8 (amended: each image is transitioned unless it is already in the
general layout or already in its respective transfer layout): `Copy` brings
the source to transfer-src-optimal and the destination to transfer-dst-optimal
(an image already in general stays in general), records a transition barrier
for exactly the images that needed one, and then records exactly one
image-copy region at mip level 0, base array layer 0, layer count 1 on both
sides. -/
theorem C8_copy_spec (srcImage dstImage : ImageHelper)
    (srcOffset dstOffset copySize : Nat × Nat × Nat) (aspectMask : Nat) (cb : List Command) :
    (ImageHelper.Copy srcImage dstImage srcOffset dstOffset copySize aspectMask cb).1.mCurrentLayout
        = (if srcImage.mCurrentLayout = VkImageLayout.General then VkImageLayout.General
           else VkImageLayout.TransferSrcOptimal) ∧
    (ImageHelper.Copy srcImage dstImage srcOffset dstOffset copySize aspectMask
        cb).2.1.mCurrentLayout
        = (if dstImage.mCurrentLayout = VkImageLayout.General then VkImageLayout.General
           else VkImageLayout.TransferDstOptimal) ∧
    barrierCount (ImageHelper.Copy srcImage dstImage srcOffset dstOffset copySize aspectMask
        cb).2.2
        = barrierCount cb
          + (if srcImage.mCurrentLayout ≠ VkImageLayout.TransferSrcOptimal ∧
                srcImage.mCurrentLayout ≠ VkImageLayout.General then 1 else 0)
          + (if dstImage.mCurrentLayout ≠ VkImageLayout.TransferDstOptimal ∧
                dstImage.mCurrentLayout ≠ VkImageLayout.General then 1 else 0) ∧
    (ImageHelper.Copy srcImage dstImage srcOffset dstOffset copySize aspectMask cb).2.2.getLast?
        = some (Command.copyImage
            (ImageHelper.Copy srcImage dstImage srcOffset dstOffset copySize aspectMask
              cb).1.mImage
            (ImageHelper.Copy srcImage dstImage srcOffset dstOffset copySize aspectMask
              cb).1.mCurrentLayout
            (ImageHelper.Copy srcImage dstImage srcOffset dstOffset copySize aspectMask
              cb).2.1.mImage
            (ImageHelper.Copy srcImage dstImage srcOffset dstOffset copySize aspectMask
              cb).2.1.mCurrentLayout
            [{ srcSubresource := ⟨aspectMask, 0, 0, 1⟩, srcOffset := srcOffset,
               dstSubresource := ⟨aspectMask, 0, 0, 1⟩, dstOffset := dstOffset,
               extent := copySize }]) := by
  unfold ImageHelper.Copy
  by_cases hs : srcImage.mCurrentLayout ≠ VkImageLayout.TransferSrcOptimal ∧
      srcImage.mCurrentLayout ≠ VkImageLayout.General
  · by_cases hd : dstImage.mCurrentLayout ≠ VkImageLayout.TransferDstOptimal ∧
        dstImage.mCurrentLayout ≠ VkImageLayout.General
    · simp [hs, hd, hs.2, hd.2, ImageHelper.changeLayoutWithStages, barrierCount_append,
        barrierCount, isImageBarrier]
    · rcases not_and_or.mp hd with hd1 | hd2
      · rw [not_ne_iff] at hd1
        simp [hs, hd, hs.2, hd1, ImageHelper.changeLayoutWithStages, barrierCount_append,
          barrierCount, isImageBarrier]
      · rw [not_ne_iff] at hd2
        simp [hs, hd, hs.2, hd2, ImageHelper.changeLayoutWithStages, barrierCount_append,
          barrierCount, isImageBarrier]
  · rcases not_and_or.mp hs with hs1 | hs2
    · rw [not_ne_iff] at hs1
      by_cases hd : dstImage.mCurrentLayout ≠ VkImageLayout.TransferDstOptimal ∧
          dstImage.mCurrentLayout ≠ VkImageLayout.General
      · simp [hs, hd, hd.2, hs1, ImageHelper.changeLayoutWithStages, barrierCount_append,
          barrierCount, isImageBarrier]
      · rcases not_and_or.mp hd with hd1 | hd2
        · rw [not_ne_iff] at hd1
          simp [hs, hd, hs1, hd1, ImageHelper.changeLayoutWithStages, barrierCount_append,
            barrierCount, isImageBarrier]
        · rw [not_ne_iff] at hd2
          simp [hs, hd, hs1, hd2, ImageHelper.changeLayoutWithStages, barrierCount_append,
            barrierCount, isImageBarrier]
    · rw [not_ne_iff] at hs2
      by_cases hd : dstImage.mCurrentLayout ≠ VkImageLayout.TransferDstOptimal ∧
          dstImage.mCurrentLayout ≠ VkImageLayout.General
      · simp [hs, hd, hd.2, hs2, ImageHelper.changeLayoutWithStages, barrierCount_append,
          barrierCount, isImageBarrier]
      · rcases not_and_or.mp hd with hd1 | hd2
        · rw [not_ne_iff] at hd1
          simp [hs, hd, hs2, hd1, ImageHelper.changeLayoutWithStages, barrierCount_append,
            barrierCount, isImageBarrier]
        · rw [not_ne_iff] at hd2
          simp [hs, hd, hs2, hd2, ImageHelper.changeLayoutWithStages, barrierCount_append,
            barrierCount, isImageBarrier]

/-- Claim C8 counterexample: with the source already in transfer-src-optimal
and the destination already in transfer-dst-optimal — neither in general —
`Copy` records no layout-transition barrier at all. -/
theorem C8_counterexample :
    srcC8.mCurrentLayout ≠ VkImageLayout.General ∧
    dstC8.mCurrentLayout ≠ VkImageLayout.General ∧
    barrierCount (ImageHelper.Copy srcC8 dstC8 (0, 0, 0) (0, 0, 0) (1, 1, 1)
      VK_IMAGE_ASPECT_COLOR_BIT []).2.2 = 0 := by
  decide

theorem fill_free (l : List VkDescriptorPoolSize) (f : Fin 2 → Int) (i : Fin 2) :
    (l.foldl (fun g ps => Function.update g (GetDescriptorSetIndexfromType ps.type)
        (g (GetDescriptorSetIndexfromType ps.type) + (ps.descriptorCount : Int))) f) i
      = f i + bucketCapacity l i := by
  induction l generalizing f with
  | nil => simp [bucketCapacity]
  | cons ps rest ih =>
      simp only [List.foldl_cons, bucketCapacity]
      rw [ih]
      rcases eq_or_ne (GetDescriptorSetIndexfromType ps.type) i with hji | hji
      · rw [hji]
        simp [Function.update_apply]
        try omega
      · simp [Function.update_apply, hji, Ne.symm hji]
        try omega

theorem bucketCapacity_nonneg (l : List VkDescriptorPoolSize) (i : Fin 2) :
    0 ≤ bucketCapacity l i := by
  induction l with
  | nil => simp [bucketCapacity]
  | cons ps rest ih =>
      simp only [bucketCapacity]
      split <;> omega

theorem allocateNewPool_spec (p : DynamicDescriptorPool) (freshPool : Nat) (i : Fin 2) :
    (p.allocateNewPool freshPool).mFreeDescriptorSets i = bucketCapacity p.mPoolSizes i ∧
    (p.allocateNewPool freshPool).mCurrentSetsCount = 0 ∧
    (p.allocateNewPool freshPool).mPoolSizes = p.mPoolSizes ∧
    (p.allocateNewPool freshPool).mMaxSetsPerPool = p.mMaxSetsPerPool := by
  refine ⟨?_, rfl, rfl, rfl⟩
  have h := fill_free p.mPoolSizes (fun _ => 0) i
  simpa [DynamicDescriptorPool.allocateNewPool] using h

theorem allocateSets_step (p : DynamicDescriptorPool) (r : RendererVk) (c : Nat) (i : Fin 2)
    (hmax : 1 ≤ p.mMaxSetsPerPool) (hc : (c : Int) ≤ bucketCapacity p.mPoolSizes i)
    (hinv : DDPInv p) :
    DDPInv (p.allocateSets r c i).1 ∧
    (p.allocateSets r c i).1.mPoolSizes = p.mPoolSizes ∧
    (p.allocateSets r c i).1.mMaxSetsPerPool = p.mMaxSetsPerPool := by
  by_cases hrot : p.mFreeDescriptorSets i < (c : Int) ∨ p.mMaxSetsPerPool ≤ p.mCurrentSetsCount
  · simp only [DynamicDescriptorPool.allocateSets, hrot, ite_true, if_pos]
    refine ⟨⟨?_, ?_⟩, ?_, ?_⟩
    · intro j
      simp only [Function.update_apply]
      rcases eq_or_ne j i with rfl | hji
      · rw [if_pos rfl, (allocateNewPool_spec p _ j).1]
        omega
      · rw [if_neg hji, (allocateNewPool_spec p _ j).1]
        exact bucketCapacity_nonneg _ _
    · simp only [(allocateNewPool_spec p _ i).2.1, (allocateNewPool_spec p _ i).2.2.2]
      omega
    · exact (allocateNewPool_spec p _ i).2.2.1
    · exact (allocateNewPool_spec p _ i).2.2.2
  · simp only [DynamicDescriptorPool.allocateSets, hrot, ite_false, if_neg]
    push_neg at hrot
    obtain ⟨h1, h2⟩ := hrot
    refine ⟨⟨?_, ?_⟩, trivial, trivial⟩
    · intro j
      simp only [Function.update_apply]
      rcases eq_or_ne j i with rfl | hji
      · rw [if_pos rfl]
        omega
      · rw [if_neg hji]
        exact hinv.1 j
    · show p.mCurrentSetsCount + 1 ≤ p.mMaxSetsPerPool
      omega

theorem runAllocateSets_inv (calls : List (Fin 2 × Nat)) (p : DynamicDescriptorPool)
    (r : RendererVk) (hmax : 1 ≤ p.mMaxSetsPerPool)
    (hc : ∀ ci ∈ calls, (ci.2 : Int) ≤ bucketCapacity p.mPoolSizes ci.1)
    (hinv : DDPInv p) : DDPInv (runAllocateSets calls p r).1 := by
  induction calls generalizing p r with
  | nil => simpa [runAllocateSets] using hinv
  | cons ci rest ih =>
      obtain ⟨i, c⟩ := ci
      simp only [runAllocateSets]
      have step := allocateSets_step p r c i hmax (hc (i, c) (by simp)) hinv
      refine ih _ _ ?_ ?_ step.1
      · rw [step.2.2]
        exact hmax
      · intro cj hj
        rw [step.2.1]
        exact hc cj (List.mem_cons_of_mem _ hj)

/-- Claim C3: a pool rotation (defer-release of the current pool, then
`allocateNewPool`) occurs exactly when the slot's free count is below the
request or the set count has reached `maxSetsPerPool`; `allocateNewPool` sets
each free slot to the sum of `poolSizes[*].descriptorCount` bucketed by slot
index and zeros the set count; and — under the configured-sizes precondition
the code asserts (each request at most the slot's bucketed capacity, at least
one set per pool) — the free counts never go negative and the set count never
exceeds `maxSetsPerPool` over any call sequence. -/
theorem C3_descriptor_accounting :
    (∀ (p : DynamicDescriptorPool) (r : RendererVk) (c : Nat) (i : Fin 2),
      ((p.allocateSets r c i).2.2 = true ↔
        (p.mFreeDescriptorSets i < (c : Int) ∨ p.mMaxSetsPerPool ≤ p.mCurrentSetsCount)) ∧
      ((p.mFreeDescriptorSets i < (c : Int) ∨ p.mMaxSetsPerPool ≤ p.mCurrentSetsCount) →
        (p.allocateSets r c i).2.1.releaseQueue
          = r.releaseQueue ++ [(r.currentQueueSerial, p.mCurrentDescriptorPool)]) ∧
      (¬ (p.mFreeDescriptorSets i < (c : Int) ∨ p.mMaxSetsPerPool ≤ p.mCurrentSetsCount) →
        (p.allocateSets r c i).2.1 = r)) ∧
    (∀ (p : DynamicDescriptorPool) (freshPool : Nat) (i : Fin 2),
      (p.allocateNewPool freshPool).mFreeDescriptorSets i = bucketCapacity p.mPoolSizes i ∧
      (p.allocateNewPool freshPool).mCurrentSetsCount = 0) ∧
    (∀ (calls : List (Fin 2 × Nat)) (p : DynamicDescriptorPool) (r : RendererVk),
      1 ≤ p.mMaxSetsPerPool →
      (∀ ci ∈ calls, (ci.2 : Int) ≤ bucketCapacity p.mPoolSizes ci.1) →
      DDPInv p → DDPInv (runAllocateSets calls p r).1) := by
  refine ⟨?_, ?_, runAllocateSets_inv⟩
  · intro p r c i
    refine ⟨?_, ?_, ?_⟩
    · simp [DynamicDescriptorPool.allocateSets]
    · intro h
      simp [DynamicDescriptorPool.allocateSets, h, RendererVk.releaseObject]
    · intro h
      simp [DynamicDescriptorPool.allocateSets, h]
  · intro p freshPool i
    exact ⟨(allocateNewPool_spec p freshPool i).1, (allocateNewPool_spec p freshPool i).2.1⟩

/-- Claim C3 witness: spec scenarios S3 (three single-set allocations keep the
invariant) and S4 (a second 5-set request rotates because only 3 descriptors
remain free). -/
theorem C3_witness :
    DDPInv (runAllocateSets callsC3 pC3 rC3).1 ∧ (pC3b.allocateSets rC3 5 0).2.2 = true :=
  ⟨C3_descriptor_accounting.2.2 callsC3 pC3 rC3 (by decide) (by decide) (by decide),
   (C3_descriptor_accounting.1 pC3b rC3 5 0).1.mpr (by decide)⟩

theorem alignment_dvd_roundUp (s a : Nat) : a ∣ roundUp s a := by
  unfold roundUp
  exact dvd_mul_left a ((s + a - 1) / a)

theorem allocate_preserves_DBWF (db : DynamicBuffer) (r : RendererVk) (s : Nat)
    (hwf : DBWF db) (hs : roundUp s db.mAlignment < size32) :
    (db.allocate r s false).offsetOut % db.mAlignment = 0 ∧
    DBWF (db.allocate r s false).db ∧
    (db.allocate r s false).db.mAlignment = db.mAlignment ∧
    (db.allocate r s false).db.mMinSize = db.mMinSize := by
  obtain ⟨ha, hdvd, hlf, hn32, hsz, hms⟩ := hwf
  by_cases hrot : rotationCondition db s
  · rw [allocate_rotate_eq db r s false hrot]
    refine ⟨by simp, ⟨ha, ?_, ?_, ?_, ?_, hms⟩, rfl, rfl⟩
    · show db.mAlignment ∣ roundUp s db.mAlignment % size32
      rw [Nat.mod_eq_of_lt hs]
      exact alignment_dvd_roundUp s db.mAlignment
    · show 0 ≤ roundUp s db.mAlignment % size32
      exact Nat.zero_le _
    · show roundUp s db.mAlignment % size32 < size32
      rw [Nat.mod_eq_of_lt hs]
      exact hs
    · show max (roundUp s db.mAlignment) db.mMinSize ≤ size32
      exact max_le (Nat.le_of_lt hs) hms
  · rw [allocate_fit_eq db r s false hrot]
    unfold rotationCondition at hrot
    push_neg at hrot
    have hfit : db.mNextAllocationOffset + roundUp s db.mAlignment < db.mSize := hrot.2
    have hmod : roundUp s db.mAlignment % size32 = roundUp s db.mAlignment :=
      Nat.mod_eq_of_lt hs
    have hsum : db.mNextAllocationOffset + roundUp s db.mAlignment < size32 := by omega
    refine ⟨?_, ⟨ha, ?_, ?_, ?_, hsz, hms⟩, rfl, rfl⟩
    · exact Nat.mod_eq_zero_of_dvd hdvd
    · show db.mAlignment ∣ (db.mNextAllocationOffset + roundUp s db.mAlignment % size32) % size32
      rw [hmod, Nat.mod_eq_of_lt hsum]
      exact Nat.dvd_add hdvd (alignment_dvd_roundUp s db.mAlignment)
    · show db.mLastFlushOrInvalidateOffset
          ≤ (db.mNextAllocationOffset + roundUp s db.mAlignment % size32) % size32
      rw [hmod, Nat.mod_eq_of_lt hsum]
      omega
    · show (db.mNextAllocationOffset + roundUp s db.mAlignment % size32) % size32 < size32
      rw [hmod, Nat.mod_eq_of_lt hsum]
      exact hsum

/-- Claim C6: after `init`, the alignment equals the maximum of the
caller-supplied alignment and the device's `nonCoherentAtomSize` (hence
positive and at least the atom size); every offset returned by `allocate` is a
multiple of the alignment and well-formedness is preserved; and when the next
allocation still fits the same backing, its offset is at least the previous
offset plus `roundUp(s, alignment)` (no rotation in between). -/
theorem C6_alignment_invariants :
    (∀ (db : DynamicBuffer) (alignment : Nat) (r : RendererVk), 0 < alignment →
      ((db.init alignment r).mAlignment = max alignment r.nonCoherentAtomSize ∧
       r.nonCoherentAtomSize ≤ (db.init alignment r).mAlignment ∧
       0 < (db.init alignment r).mAlignment)) ∧
    (∀ (db : DynamicBuffer) (r : RendererVk) (s : Nat), DBWF db →
      roundUp s db.mAlignment < size32 →
      ((db.allocate r s false).offsetOut % db.mAlignment = 0 ∧
       DBWF (db.allocate r s false).db)) ∧
    (∀ (db : DynamicBuffer) (r : RendererVk) (s1 s2 : Nat), DBWF db →
      roundUp s1 db.mAlignment < size32 →
      (db.allocate r s1 false).db.mNextAllocationOffset + roundUp s2 db.mAlignment
          < (db.allocate r s1 false).db.mSize →
      ((db.allocate r s1 false).db.allocate (db.allocate r s1 false).renderer s2
          false).offsetOut
        ≥ (db.allocate r s1 false).offsetOut + roundUp s1 db.mAlignment) := by
  refine ⟨?_, ?_, ?_⟩
  · intro db alignment r h
    exact ⟨rfl, le_max_right _ _, lt_of_lt_of_le h (le_max_left _ _)⟩
  · intro db r s hwf hs
    exact ⟨(allocate_preserves_DBWF db r s hwf hs).1,
           (allocate_preserves_DBWF db r s hwf hs).2.1⟩
  · intro db r s1 s2 hwf hs1 hfit2
    have hpres := allocate_preserves_DBWF db r s1 hwf hs1
    have hwf1 := hpres.2.1
    have halign1 := hpres.2.2.1
    have hnorot2 : ¬ rotationCondition (db.allocate r s1 false).db s2 := by
      unfold rotationCondition
      rw [halign1]
      push_neg
      have hsz1 : (db.allocate r s1 false).db.mSize ≤ size32 := hwf1.2.2.2.2.1
      constructor
      · have : size32 < size64 := by decide
        omega
      · exact hfit2
    rw [allocate_fit_eq _ _ _ _ hnorot2]
    by_cases hrot1 : rotationCondition db s1
    · rw [allocate_rotate_eq db r s1 false hrot1]
      simp [Nat.mod_eq_of_lt hs1]
    · rw [allocate_fit_eq db r s1 false hrot1]
      unfold rotationCondition at hrot1
      push_neg at hrot1
      have hsz := hwf.2.2.2.2.1
      have hmod : roundUp s1 db.mAlignment % size32 = roundUp s1 db.mAlignment :=
        Nat.mod_eq_of_lt hs1
      show (db.mNextAllocationOffset + roundUp s1 db.mAlignment % size32) % size32
          ≥ db.mNextAllocationOffset + roundUp s1 db.mAlignment
      rw [hmod, Nat.mod_eq_of_lt (by omega)]

/-- Claim C6 witness: a 256-byte-aligned buffer mid-frame (spec scenario S1
shape): the 300-byte allocation lands at offset 512 (a multiple of 256),
well-formedness is preserved, the 500-byte follow-up comes at least 512 bytes
later, and `init` combines alignment 4 with the device atom size. -/
theorem C6_witness :
    (dbC6.allocate rC6 300 false).offsetOut % dbC6.mAlignment = 0 ∧
    DBWF (dbC6.allocate rC6 300 false).db ∧
    ((dbC6.allocate rC6 300 false).db.allocate (dbC6.allocate rC6 300 false).renderer 500
        false).offsetOut
      ≥ (dbC6.allocate rC6 300 false).offsetOut + roundUp 300 dbC6.mAlignment ∧
    ((DynamicBuffer.new 0 16).init 4 rC6).mAlignment = max 4 rC6.nonCoherentAtomSize :=
  ⟨(C6_alignment_invariants.2.1 dbC6 rC6 300 (by decide) (by decide)).1,
   (C6_alignment_invariants.2.1 dbC6 rC6 300 (by decide) (by decide)).2,
   C6_alignment_invariants.2.2 dbC6 rC6 300 500 (by decide) (by decide) (by decide),
   (C6_alignment_invariants.1 (DynamicBuffer.new 0 16) 4 rC6 (by decide)).1⟩

theorem flush_post_eq (db : DynamicBuffer)
    (h : db.mLastFlushOrInvalidateOffset ≤ db.mNextAllocationOffset) :
    (db.flush).1.mLastFlushOrInvalidateOffset = (db.flush).1.mNextAllocationOffset := by
  unfold DynamicBuffer.flush
  rcases Nat.lt_or_ge db.mLastFlushOrInvalidateOffset db.mNextAllocationOffset with hlt | hge
  · rw [if_pos hlt]
  · rw [if_neg (Nat.not_lt.mpr hge)]
    show db.mLastFlushOrInvalidateOffset = db.mNextAllocationOffset
    omega

/-- Claim C5: `getIndexBufferForDrawArrays(first, count)` requests
`(count+1)*4` bytes from the dynamic index buffer, writes the `count+1`
uint32 indices `first, first+1, …, first+count-1, first` (the last repeating
the first), and flushes; the `Draw` step records
`drawIndexed(count+1, 1, 0, 0, 0)`. -/
theorem C5_drawArrays_spec (llh : LineLoopHelper) (r : RendererVk)
    (firstVertex vertexCount : Nat)
    (hfc : firstVertex + vertexCount < size32) (hc1 : vertexCount + 1 < size32)
    (hwf : DBWF llh.mDynamicIndexBuffer)
    (hs : roundUp (4 * (vertexCount + 1)) llh.mDynamicIndexBuffer.mAlignment < size32) :
    (llh.getIndexBufferForDrawArrays r firstVertex vertexCount).allocateBytes
        = 4 * (vertexCount + 1) ∧
    (llh.getIndexBufferForDrawArrays r firstVertex vertexCount).writtenIndices
        = (List.range vertexCount).map (fun k => firstVertex + k) ++ [firstVertex] ∧
    (llh.getIndexBufferForDrawArrays r firstVertex vertexCount).writtenIndices.length
        = vertexCount + 1 ∧
    (llh.getIndexBufferForDrawArrays r firstVertex
        vertexCount).llh.mDynamicIndexBuffer.mLastFlushOrInvalidateOffset
      = (llh.getIndexBufferForDrawArrays r firstVertex
          vertexCount).llh.mDynamicIndexBuffer.mNextAllocationOffset ∧
    (∀ cb : List Command, LineLoopHelper.Draw vertexCount cb
        = cb ++ [Command.drawIndexed (vertexCount + 1) 1 0 0 0]) := by
  have h1 : min vertexCount (size32 - 1) = vertexCount := Nat.min_eq_left (by omega)
  have h2 : firstVertex % size32 = firstVertex := Nat.mod_eq_of_lt (by omega)
  have h3 : (vertexCount + firstVertex) % size32 = vertexCount + firstVertex :=
    Nat.mod_eq_of_lt (by omega)
  refine ⟨rfl, ?_, ?_, ?_, ?_⟩
  · show (List.range ((min vertexCount (size32 - 1) + firstVertex % size32) % size32
        - firstVertex % size32)).map (fun k => firstVertex % size32 + k) ++ [firstVertex % size32]
      = (List.range vertexCount).map (fun k => firstVertex + k) ++ [firstVertex]
    rw [h1, h2, h3]
    simp
  · show ((List.range ((min vertexCount (size32 - 1) + firstVertex % size32) % size32
        - firstVertex % size32)).map (fun k => firstVertex % size32 + k)
          ++ [firstVertex % size32]).length = vertexCount + 1
    rw [h1, h2, h3]
    simp
  · have hwf1 : DBWF ({ llh.mDynamicIndexBuffer with mRetainedBuffers := [] } : DynamicBuffer) :=
      hwf
    have hpost := (allocate_preserves_DBWF
      ({ llh.mDynamicIndexBuffer with mRetainedBuffers := [] })
      ((llh.mDynamicIndexBuffer.releaseRetainedBuffers r).2) (4 * (vertexCount + 1)) hwf1 hs).2.1
    have hle := hpost.2.2.1
    show ((({ llh.mDynamicIndexBuffer with mRetainedBuffers := [] } : DynamicBuffer).allocate
        ((llh.mDynamicIndexBuffer.releaseRetainedBuffers r).2) (4 * (vertexCount + 1))
          false).db.flush).1.mLastFlushOrInvalidateOffset
      = ((({ llh.mDynamicIndexBuffer with mRetainedBuffers := [] } : DynamicBuffer).allocate
          ((llh.mDynamicIndexBuffer.releaseRetainedBuffers r).2) (4 * (vertexCount + 1))
            false).db.flush).1.mNextAllocationOffset
    exact flush_post_eq _ hle
  · intro cb
    unfold LineLoopHelper.Draw
    rw [Nat.mod_eq_of_lt hc1]

/-- Claim C5 witness: spec scenario S6 — `first = 10`, `count = 4` writes the
five indices 10, 11, 12, 13, 10 and `Draw` records
`drawIndexed(5, 1, 0, 0, 0)`. -/
theorem C5_witness :
    (llhC5.getIndexBufferForDrawArrays rC5 10 4).writtenIndices
        = (List.range 4).map (fun k => 10 + k) ++ [10] ∧
    (llhC5.getIndexBufferForDrawArrays rC5 10 4).allocateBytes = 20 ∧
    LineLoopHelper.Draw 4 [] = [Command.drawIndexed 5 1 0 0 0] :=
  ⟨(C5_drawArrays_spec llhC5 rC5 10 4 (by decide) (by decide) (by decide) (by decide)).2.1,
   (C5_drawArrays_spec llhC5 rC5 10 4 (by decide) (by decide) (by decide) (by decide)).1,
   (C5_drawArrays_spec llhC5 rC5 10 4 (by decide) (by decide) (by decide) (by decide)).2.2.2.2 []⟩

theorem rangeGetD_eq (l : List Nat) :
    (List.range l.length).map (fun i => l.getD i 0) = l := by
  induction l with
  | nil => simp
  | cons a rest ih =>
      rw [List.length_cons, List.range_succ_eq_map]
      rw [List.map_cons, List.map_map]
      have hcomp : ((fun i => (a :: rest).getD i 0) ∘ Nat.succ) = fun i => rest.getD i 0 := by
        funext i
        simp [List.getD_cons_succ]
      rw [hcomp, ih, List.getD_cons_zero]

/-- Claim C9: with unsigned-byte source indices of length n (n ≥ 1),
`getIndexBufferForClientElementArray` writes n+1 destination uint16 values:
each source byte widened (value-preserving) in order, then the first source
byte repeated at the tail. -/
theorem C9_clientByteIndices (llh : LineLoopHelper) (r : RendererVk) (srcData : List Nat)
    (indexCount : Nat) (hlen : srcData.length = indexCount) (_hpos : 0 < indexCount)
    (_hbytes : ∀ b ∈ srcData, b < 256) :
    (llh.getIndexBufferForClientElementArray r GLIndexType.UnsignedByte indexCount
        srcData).writtenIndices
      = srcData ++ [srcData.getD 0 0] ∧
    (llh.getIndexBufferForClientElementArray r GLIndexType.UnsignedByte indexCount
        srcData).writtenIndices.length = indexCount + 1 := by
  have hw : (List.range indexCount).map (fun i => srcData.getD i 0) = srcData := by
    rw [← hlen]
    exact rangeGetD_eq srcData
  constructor
  · show (if GLIndexType.UnsignedByte = GLIndexType.UnsignedByte then
        (List.range indexCount).map (fun i => srcData.getD i 0) ++ [srcData.getD 0 0]
      else
        (List.range indexCount).map (fun i => srcData.getD i 0) ++ [srcData.getD 0 0])
      = srcData ++ [srcData.getD 0 0]
    rw [if_pos rfl, hw]
  · show (if GLIndexType.UnsignedByte = GLIndexType.UnsignedByte then
        (List.range indexCount).map (fun i => srcData.getD i 0) ++ [srcData.getD 0 0]
      else
        (List.range indexCount).map (fun i => srcData.getD i 0) ++ [srcData.getD 0 0]).length
      = indexCount + 1
    rw [if_pos rfl, hw]
    simp [hlen]

/-- Claim C9 witness: spec scenario S7 — source bytes 2, 5, 9 produce the
uint16 sequence 2, 5, 9, 2. -/
theorem C9_witness :
    (llhC9.getIndexBufferForClientElementArray rC9 GLIndexType.UnsignedByte 3
        [2, 5, 9]).writtenIndices = [2, 5, 9] ++ [List.getD [2, 5, 9] 0 0] ∧
    (llhC9.getIndexBufferForClientElementArray rC9 GLIndexType.UnsignedByte 3
        [2, 5, 9]).writtenIndices.length = 4 :=
  ⟨(C9_clientByteIndices llhC9 rC9 [2, 5, 9] 3 rfl (by decide) (by decide)).1,
   (C9_clientByteIndices llhC9 rC9 [2, 5, 9] 3 rfl (by decide) (by decide)).2⟩

theorem flush_preserves_retained (db : DynamicBuffer) :
    (db.flush).1.mRetainedBuffers = db.mRetainedBuffers := by
  unfold DynamicBuffer.flush
  split <;> rfl

/-- Claim C10: `getIndexBufferForDrawArrays` and
`getIndexBufferForElementArrayBuffer` hand the dynamic buffer's retained
buffers to the deferred-release queue before allocating, but
`getIndexBufferForClientElementArray` does not: it leaves the release queue
untouched, and after it returns the retained list holds the prior retained
buffers plus, when the allocation rotated, the superseded pair. -/
theorem C10_retained_release_discipline :
    (∀ (llh : LineLoopHelper) (r : RendererVk) (typ : GLIndexType) (n : Nat)
        (src : List Nat),
      (llh.getIndexBufferForClientElementArray r typ n src).renderer.releaseQueue
          = r.releaseQueue ∧
      (llh.getIndexBufferForClientElementArray r typ n
          src).llh.mDynamicIndexBuffer.mRetainedBuffers
          = llh.mDynamicIndexBuffer.mRetainedBuffers ++
              (if rotationCondition llh.mDynamicIndexBuffer
                  ((if GetIndexType typ = VkIndexType.Uint16 then 2 else 4) * (n + 1)) then
                 [⟨llh.mDynamicIndexBuffer.mBuffer, llh.mDynamicIndexBuffer.mMemory⟩]
               else [])) ∧
    (∀ (llh : LineLoopHelper) (r : RendererVk) (firstVertex vertexCount : Nat),
      (llh.getIndexBufferForDrawArrays r firstVertex vertexCount).renderer.releaseQueue
          = r.releaseQueue ++ retainedReleaseEntries r.currentQueueSerial
              llh.mDynamicIndexBuffer.mRetainedBuffers ∧
      (llh.getIndexBufferForDrawArrays r firstVertex
          vertexCount).llh.mDynamicIndexBuffer.mRetainedBuffers
          = (if rotationCondition llh.mDynamicIndexBuffer (4 * (vertexCount + 1)) then
               [⟨llh.mDynamicIndexBuffer.mBuffer, llh.mDynamicIndexBuffer.mMemory⟩]
             else [])) ∧
    (∀ (llh : LineLoopHelper) (r : RendererVk) (srcBuffer : Nat) (indexType : VkIndexType)
        (n : Nat) (srcOffset : Nat) (cb : List Command),
      (llh.getIndexBufferForElementArrayBuffer r srcBuffer indexType n srcOffset
          cb).renderer.releaseQueue
          = r.releaseQueue ++ retainedReleaseEntries r.currentQueueSerial
              llh.mDynamicIndexBuffer.mRetainedBuffers ∧
      (llh.getIndexBufferForElementArrayBuffer r srcBuffer indexType n srcOffset
          cb).llh.mDynamicIndexBuffer.mRetainedBuffers
          = (if rotationCondition llh.mDynamicIndexBuffer
                ((if indexType = VkIndexType.Uint16 then 2 else 4) * (n + 1)) then
               [⟨llh.mDynamicIndexBuffer.mBuffer, llh.mDynamicIndexBuffer.mMemory⟩]
             else [])) := by
  refine ⟨?_, ?_, ?_⟩
  · intro llh r typ n src
    by_cases hrot : rotationCondition llh.mDynamicIndexBuffer
        ((if GetIndexType typ = VkIndexType.Uint16 then 2 else 4) * (n + 1))
    · constructor
      · show (llh.mDynamicIndexBuffer.allocate r
            ((if GetIndexType typ = VkIndexType.Uint16 then 2 else 4) * (n + 1))
              false).renderer.releaseQueue = r.releaseQueue
        rw [allocate_rotate_eq _ _ _ _ hrot]
      · show ((llh.mDynamicIndexBuffer.allocate r
            ((if GetIndexType typ = VkIndexType.Uint16 then 2 else 4) * (n + 1))
              false).db.flush).1.mRetainedBuffers = _
        rw [flush_preserves_retained, allocate_rotate_eq _ _ _ _ hrot, if_pos hrot]
    · constructor
      · show (llh.mDynamicIndexBuffer.allocate r
            ((if GetIndexType typ = VkIndexType.Uint16 then 2 else 4) * (n + 1))
              false).renderer.releaseQueue = r.releaseQueue
        rw [allocate_fit_eq _ _ _ _ hrot]
      · show ((llh.mDynamicIndexBuffer.allocate r
            ((if GetIndexType typ = VkIndexType.Uint16 then 2 else 4) * (n + 1))
              false).db.flush).1.mRetainedBuffers = _
        rw [flush_preserves_retained, allocate_fit_eq _ _ _ _ hrot, if_neg hrot]
        simp
  · intro llh r firstVertex vertexCount
    have h1 : (llh.mDynamicIndexBuffer.releaseRetainedBuffers r).1
        = ({ llh.mDynamicIndexBuffer with mRetainedBuffers := [] } : DynamicBuffer) := by
      rw [releaseRetainedBuffers_eq]
    have h2 : (llh.mDynamicIndexBuffer.releaseRetainedBuffers r).2
        = { r with releaseQueue := r.releaseQueue ++
              (retainedReleaseEntries r.currentQueueSerial
                llh.mDynamicIndexBuffer.mRetainedBuffers) } := by
      rw [releaseRetainedBuffers_eq]
    by_cases hrot : rotationCondition llh.mDynamicIndexBuffer (4 * (vertexCount + 1))
    · have hrot' : rotationCondition
          ({ llh.mDynamicIndexBuffer with mRetainedBuffers := [] } : DynamicBuffer)
          (4 * (vertexCount + 1)) := hrot
      constructor
      · show ((llh.mDynamicIndexBuffer.releaseRetainedBuffers r).1.allocate
            (llh.mDynamicIndexBuffer.releaseRetainedBuffers r).2 (4 * (vertexCount + 1))
              false).renderer.releaseQueue = _
        rw [h1, h2, allocate_rotate_eq _ _ _ _ hrot']
      · show (((llh.mDynamicIndexBuffer.releaseRetainedBuffers r).1.allocate
            (llh.mDynamicIndexBuffer.releaseRetainedBuffers r).2 (4 * (vertexCount + 1))
              false).db.flush).1.mRetainedBuffers = _
        rw [flush_preserves_retained, h1, h2, allocate_rotate_eq _ _ _ _ hrot', if_pos hrot]
        all_goals simp
    · have hrot' : ¬ rotationCondition
          ({ llh.mDynamicIndexBuffer with mRetainedBuffers := [] } : DynamicBuffer)
          (4 * (vertexCount + 1)) := hrot
      constructor
      · show ((llh.mDynamicIndexBuffer.releaseRetainedBuffers r).1.allocate
            (llh.mDynamicIndexBuffer.releaseRetainedBuffers r).2 (4 * (vertexCount + 1))
              false).renderer.releaseQueue = _
        rw [h1, h2, allocate_fit_eq _ _ _ _ hrot']
      · show (((llh.mDynamicIndexBuffer.releaseRetainedBuffers r).1.allocate
            (llh.mDynamicIndexBuffer.releaseRetainedBuffers r).2 (4 * (vertexCount + 1))
              false).db.flush).1.mRetainedBuffers = _
        rw [flush_preserves_retained, h1, h2, allocate_fit_eq _ _ _ _ hrot', if_neg hrot]
        all_goals simp
  · intro llh r srcBuffer indexType n srcOffset cb
    have h1 : (llh.mDynamicIndexBuffer.releaseRetainedBuffers r).1
        = ({ llh.mDynamicIndexBuffer with mRetainedBuffers := [] } : DynamicBuffer) := by
      rw [releaseRetainedBuffers_eq]
    have h2 : (llh.mDynamicIndexBuffer.releaseRetainedBuffers r).2
        = { r with releaseQueue := r.releaseQueue ++
              (retainedReleaseEntries r.currentQueueSerial
                llh.mDynamicIndexBuffer.mRetainedBuffers) } := by
      rw [releaseRetainedBuffers_eq]
    by_cases hrot : rotationCondition llh.mDynamicIndexBuffer
        ((if indexType = VkIndexType.Uint16 then 2 else 4) * (n + 1))
    · have hrot' : rotationCondition
          ({ llh.mDynamicIndexBuffer with mRetainedBuffers := [] } : DynamicBuffer)
          ((if indexType = VkIndexType.Uint16 then 2 else 4) * (n + 1)) := hrot
      constructor
      · show ((llh.mDynamicIndexBuffer.releaseRetainedBuffers r).1.allocate
            (llh.mDynamicIndexBuffer.releaseRetainedBuffers r).2
            ((if indexType = VkIndexType.Uint16 then 2 else 4) * (n + 1))
              false).renderer.releaseQueue = _
        rw [h1, h2, allocate_rotate_eq _ _ _ _ hrot']
      · show (((llh.mDynamicIndexBuffer.releaseRetainedBuffers r).1.allocate
            (llh.mDynamicIndexBuffer.releaseRetainedBuffers r).2
            ((if indexType = VkIndexType.Uint16 then 2 else 4) * (n + 1))
              false).db.flush).1.mRetainedBuffers = _
        rw [flush_preserves_retained, h1, h2, allocate_rotate_eq _ _ _ _ hrot', if_pos hrot]
        all_goals simp
    · have hrot' : ¬ rotationCondition
          ({ llh.mDynamicIndexBuffer with mRetainedBuffers := [] } : DynamicBuffer)
          ((if indexType = VkIndexType.Uint16 then 2 else 4) * (n + 1)) := hrot
      constructor
      · show ((llh.mDynamicIndexBuffer.releaseRetainedBuffers r).1.allocate
            (llh.mDynamicIndexBuffer.releaseRetainedBuffers r).2
            ((if indexType = VkIndexType.Uint16 then 2 else 4) * (n + 1))
              false).renderer.releaseQueue = _
        rw [h1, h2, allocate_fit_eq _ _ _ _ hrot']
      · show (((llh.mDynamicIndexBuffer.releaseRetainedBuffers r).1.allocate
            (llh.mDynamicIndexBuffer.releaseRetainedBuffers r).2
            ((if indexType = VkIndexType.Uint16 then 2 else 4) * (n + 1))
              false).db.flush).1.mRetainedBuffers = _
        rw [flush_preserves_retained, h1, h2, allocate_fit_eq _ _ _ _ hrot', if_neg hrot]
        all_goals simp

end VkHelpers
